import Mathlib

/-!
Verification of the screen-color-monitor sampling/decision loop.

Shallow embedding of `src/main.py` (class `ScreenColorMonitor`): the
configuration record and its merge-on-load, the color-match computation
`check_color_match`, the debounced trigger `press_key` / `_execute_press`,
and one iteration of `monitor_loop`.

Conventions:
  * pixel channels and the target color are integers (numpy promotes the
    `uint8` image minus the `int64` target array to `int64`, so the
    subtraction in the source is exact integer arithmetic);
  * wall-clock times, durations and the match percentage are rationals
    (the source uses Python floats; no rounding behaviour is at stake in
    any claim, only orderings and exact ratios of small integers);
  * the screen capturer and the key-action sink (`pynput`) are modelled as
    explicit collaborators passed in (`Except`-valued), as in spec §6;
  * file I/O in `load_config` is modelled by an explicit `FileState`.
-/

namespace ScreenColorMonitor

/-- A target color, `config["target_color"]` (fields r, g, b). -/
structure Color where
  r : ℤ
  g : ℤ
  b : ℤ
  deriving DecidableEq, Repr

/-- The monitor region record, `config["monitor_region"]`. -/
structure Region where
  left : ℤ
  top : ℤ
  width : ℤ
  height : ℤ
  deriving DecidableEq, Repr

/-- The full configuration record (all keys of `default_config` in
`load_config`, `src/main.py` lines 48-69). -/
structure Config where
  monitor_region : Region
  target_color : Color
  color_tolerance : ℤ
  threshold_percentage : ℚ
  press_key : String
  press_delay_ms : ℤ
  cooldown_ms : ℤ
  check_interval_ms : ℤ
  hotkey_start_stop : String
  hotkey_pause_resume : String
  hotkey_screenshot : String
  deriving DecidableEq, Repr

/-- The `default_config` dict of `load_config` (`src/main.py` lines 48-69). -/
def default_config : Config where
  monitor_region := { left := 100, top := 100, width := 200, height := 200 }
  target_color := { r := 255, g := 0, b := 0 }
  color_tolerance := 30
  threshold_percentage := 10
  press_key := "e"
  press_delay_ms := 0
  cooldown_ms := 100
  check_interval_ms := 10
  hotkey_start_stop := "f9"
  hotkey_pause_resume := "f10"
  hotkey_screenshot := "f8"

/-! ## Configuration loading and the backward-compatible merge -/

/-- A possibly-partial `monitor_region` dict found in the loaded JSON:
each sub-key may be absent. -/
structure PartialRegion where
  left : Option ℤ
  top : Option ℤ
  width : Option ℤ
  height : Option ℤ
  deriving DecidableEq, Repr

/-- A possibly-partial `target_color` dict found in the loaded JSON. -/
structure PartialColor where
  r : Option ℤ
  g : Option ℤ
  b : Option ℤ
  deriving DecidableEq, Repr

/-- A successfully parsed `config.json`: any top-level key (and any key
nested inside the two dict-valued entries) may be absent. -/
structure PartialConfig where
  monitor_region : Option PartialRegion
  target_color : Option PartialColor
  color_tolerance : Option ℤ
  threshold_percentage : Option ℚ
  press_key : Option String
  press_delay_ms : Option ℤ
  cooldown_ms : Option ℤ
  check_interval_ms : Option ℤ
  hotkey_start_stop : Option String
  hotkey_pause_resume : Option String
  hotkey_screenshot : Option String
  deriving DecidableEq, Repr

/-- The merge loop of `load_config` (`src/main.py` lines 74-80): for each
key of `default_config`, a missing top-level key receives the whole default
value; a present dict-valued key has each of its missing sub-keys filled
from the default dict. Present keys are never overwritten. -/
def merged_config (loaded : PartialConfig) : Config where
  monitor_region :=
    match loaded.monitor_region with
    | none => default_config.monitor_region
    | some pr =>
      { left := pr.left.getD default_config.monitor_region.left
        top := pr.top.getD default_config.monitor_region.top
        width := pr.width.getD default_config.monitor_region.width
        height := pr.height.getD default_config.monitor_region.height }
  target_color :=
    match loaded.target_color with
    | none => default_config.target_color
    | some pc =>
      { r := pc.r.getD default_config.target_color.r
        g := pc.g.getD default_config.target_color.g
        b := pc.b.getD default_config.target_color.b }
  color_tolerance := loaded.color_tolerance.getD default_config.color_tolerance
  threshold_percentage :=
    loaded.threshold_percentage.getD default_config.threshold_percentage
  press_key := loaded.press_key.getD default_config.press_key
  press_delay_ms := loaded.press_delay_ms.getD default_config.press_delay_ms
  cooldown_ms := loaded.cooldown_ms.getD default_config.cooldown_ms
  check_interval_ms := loaded.check_interval_ms.getD default_config.check_interval_ms
  hotkey_start_stop := loaded.hotkey_start_stop.getD default_config.hotkey_start_stop
  hotkey_pause_resume := loaded.hotkey_pause_resume.getD default_config.hotkey_pause_resume
  hotkey_screenshot := loaded.hotkey_screenshot.getD default_config.hotkey_screenshot

/-- The state of `config.json` when `load_config` runs: absent
(`FileNotFoundError`), unparseable (`json.JSONDecodeError`), or parsed to a
(possibly partial) record. -/
inductive FileState where
  | absent
  | corrupt
  | parsed (loaded : PartialConfig)
  deriving DecidableEq, Repr

/-- What `load_config` produced: the returned config, and the config
written back to disk by `save_config` if that call was made (`none` when
nothing was written). -/
structure LoadResult where
  config : Config
  written : Option Config
  deriving DecidableEq, Repr

/-- Function `load_config` (`src/main.py` lines 70-84): parse the file and merge
defaults into missing keys; on `FileNotFoundError` or `JSONDecodeError`,
persist the defaults via `save_config` and return them. It is a total
function: neither error propagates to the caller. -/
def load_config : FileState → LoadResult
  | .absent => { config := default_config, written := some default_config }
  | .corrupt => { config := default_config, written := some default_config }
  | .parsed loaded => { config := merged_config loaded, written := none }

/-! ## The capture frame and the color match -/

/-- One RGB pixel of a captured frame (after the BGRA→RGB conversion in
`capture_screen_region`), channels as integers. -/
structure Pixel where
  r : ℤ
  g : ℤ
  b : ℤ
  deriving DecidableEq, Repr

/-- A captured pixel buffer of shape (H, W, 3): `rows.length = H`, every
row has length `width = W` (numpy arrays are rectangular, recorded by
`rect`). -/
structure Image where
  rows : List (List Pixel)
  width : ℕ
  rect : ∀ row ∈ rows, row.length = width

/-- A pixel has all channel values in the 8-bit range 0..255. -/
def Pixel.inByteRange (p : Pixel) : Prop :=
  0 ≤ p.r ∧ p.r ≤ 255 ∧ 0 ≤ p.g ∧ p.g ≤ 255 ∧ 0 ≤ p.b ∧ p.b ≤ 255

/-- A color has all channel values in the 8-bit range 0..255. -/
def Color.inByteRange (c : Color) : Prop :=
  0 ≤ c.r ∧ c.r ≤ 255 ∧ 0 ≤ c.g ∧ c.g ≤ 255 ∧ 0 ≤ c.b ∧ c.b ≤ 255

/-- One cell of `mask = np.all(np.abs(img - target_rgb) <= tolerance, axis=2)`
(`src/main.py` lines 118-121): the pixel matches iff all three per-channel
absolute differences to the target are at most the tolerance. -/
def pixel_matches (p : Pixel) (target : Color) (tolerance : ℤ) : Bool :=
  |p.r - target.r| ≤ tolerance && |p.g - target.g| ≤ tolerance &&
    |p.b - target.b| ≤ tolerance

/-- Computation `total_pixels = img.shape[0] * img.shape[1]` (`src/main.py` line 124). -/
def total_pixels (img : Image) : ℕ :=
  img.rows.length * img.width

/-- Computation `matched_pixels = np.sum(mask)` (`src/main.py` line 125): the number of
true cells of the H×W mask, summed row by row. -/
def matched_pixels (img : Image) (target : Color) (tolerance : ℤ) : ℕ :=
  (img.rows.map fun row => row.countP fun p => pixel_matches p target tolerance).sum

/-- Function `check_color_match` (`src/main.py` lines 109-128): the percentage of
pixels of the buffer matching the configured target color within the
configured tolerance. (The boolean mask also returned by the source is not
used by any caller except for this percentage.) -/
def check_color_match (cfg : Config) (img : Image) : ℚ :=
  (matched_pixels img cfg.target_color cfg.color_tolerance : ℚ) /
    (total_pixels img : ℚ) * 100

/-! ## The debounced trigger -/

/-- The key object handed to the `pynput` controller by `_execute_press`
(`src/main.py` lines 135-149): a plain character/string, or one of the
special keys `Key.space`, `Key.shift`, `Key.ctrl`. -/
inductive KeyTarget where
  | charKey (s : String)
  | space
  | shift
  | ctrl
  deriving DecidableEq, Repr

/-- The key-name dispatch of `_execute_press`: length-1 strings and
unrecognized names are passed through as-is; `"space"`, `"shift"`,
`"ctrl"` map to the special keys. -/
def resolve_key (key_str : String) : KeyTarget :=
  if key_str.length = 1 then .charKey key_str
  else if key_str = "space" then .space
  else if key_str = "shift" then .shift
  else if key_str = "ctrl" then .ctrl
  else .charKey key_str

/-- The action sink (spec §6): pressing+releasing a key either succeeds or
raises an `ActionError` carrying a message. -/
def Sink : Type := KeyTarget → Except String Unit

/-- The mutable per-monitor state touched by the loop and the trigger:
trigger bookkeeping (`trigger_count`, `last_trigger_time`, the latter in
milliseconds) and the FPS statistics (`detection_count`,
`last_fps_check_time` in seconds, `fps`). -/
structure MonitorState where
  trigger_count : ℕ
  last_trigger_time : ℚ
  detection_count : ℕ
  last_fps_check_time : ℚ
  fps : ℚ
  deriving DecidableEq, Repr

/-- Method `_execute_press` (`src/main.py` lines 130-154): resolve the configured
key name, try the press/release pair on the sink; on success increment
`trigger_count` by one, on an exception log and leave the counter alone.
Returns the new counter value. -/
def execute_press (cfg : Config) (sink : Sink) (trigger_count : ℕ) : ℕ :=
  let key_str := cfg.press_key.toLower
  match sink (resolve_key key_str) with
  | .ok _ => trigger_count + 1
  | .error _ => trigger_count

/-- What a `press_key` invocation did: silently dropped by the cooldown
check, scheduled on a `threading.Timer` to fire after `delay_s` seconds, or
executed inline. -/
inductive PressOutcome where
  | dropped
  | scheduled (delay_s : ℚ)
  | immediate
  deriving DecidableEq, Repr

/-- Method `press_key` (`src/main.py` lines 156-175), at invocation time
`current_time` (ms): if `current_time - last_trigger_time < cooldown_ms`
the call returns with no state change at all; otherwise
`last_trigger_time := current_time` immediately, and the actual press is
either scheduled after `press_delay_ms` (counter untouched now — it is
incremented inside `_execute_press` when the timer fires) or, with no
delay, executed inline. -/
def press_key (cfg : Config) (sink : Sink) (st : MonitorState)
    (current_time : ℚ) : MonitorState × PressOutcome :=
  if current_time - st.last_trigger_time < (cfg.cooldown_ms : ℚ) then
    (st, .dropped)
  else
    let st := { st with last_trigger_time := current_time }
    if cfg.press_delay_ms > 0 then
      (st, .scheduled ((cfg.press_delay_ms : ℚ) / 1000))
    else
      ({ st with trigger_count := execute_press cfg sink st.trigger_count },
        .immediate)

/-- Run a sequence of `press_key` invocations at the given timestamps (ms),
recording for each whether it was accepted (not dropped). -/
def press_seq (cfg : Config) (sink : Sink) (st : MonitorState) :
    List ℚ → List Bool
  | [] => []
  | t :: ts =>
    let r := press_key cfg sink st t
    (match r.2 with | .dropped => false | _ => true) :: press_seq cfg sink r.1 ts

/-- Modelled from the spec (§8, "Debounce"): an invocation is accepted iff
it is the first of the sequence, or at least `C` ms after the previous
accepted timestamp. This is the spec's predicted accept/drop pattern, to be
compared with `press_seq`. -/
def spec_accepted (C : ℚ) : List ℚ → Option ℚ → List Bool
  | [], _ => []
  | t :: ts, none => true :: spec_accepted C ts (some t)
  | t :: ts, some prev =>
    if C ≤ t - prev then true :: spec_accepted C ts (some t)
    else false :: spec_accepted C ts (some prev)

/-! ## One iteration of the monitor loop -/

/-- The externally visible effects of one loop iteration: whether the
screen was captured, whether `press_key` was invoked, and the `time.sleep`
calls issued, in order, in seconds. -/
structure IterEffects where
  captured : Bool
  invoked : Bool
  sleeps : List ℚ
  deriving DecidableEq, Repr

/-- The FPS-statistics update (`src/main.py` lines 199-204): increment
`detection_count`; once at least 1 s has passed since the window start,
publish `fps = detection_count / elapsed` and reset the window. -/
def fps_update (st : MonitorState) (current_time : ℚ) : MonitorState :=
  let st := { st with detection_count := st.detection_count + 1 }
  if 1 ≤ current_time - st.last_fps_check_time then
    { st with
      fps := (st.detection_count : ℚ) / (current_time - st.last_fps_check_time)
      detection_count := 0
      last_fps_check_time := current_time }
  else st

/-- The sleep-to-cadence step (`src/main.py` lines 218-224):
`target_interval = check_interval_ms / 1000`; sleep is performed only when
`target_interval > 0` and the remainder `target_interval - loop_duration`
is positive; the result is the `time.sleep` argument in seconds,
`none` when no sleep call is made. -/
def cadence_sleep (check_interval_ms : ℤ) (loop_duration : ℚ) : Option ℚ :=
  let target_interval : ℚ := (check_interval_ms : ℚ) / 1000
  if target_interval > 0 then
    let time_to_wait := target_interval - loop_duration
    if time_to_wait > 0 then some time_to_wait else none
  else none

/-- One iteration of `monitor_loop` (`src/main.py` lines 187-224), with the
environment supplied explicitly: the paused flag sampled at the top, the
capture result (`Except` models a raised capture error), the wall-clock
second/millisecond readings used for the FPS window and the cooldown, the
key sink, and the measured `loop_duration` at the cadence step. Paused:
sleep 0.1 s and restart, touching nothing else. Capture error: log, sleep
0.1 s, fall through to the cadence step. Otherwise: update FPS statistics,
compute the match percentage, and invoke `press_key` iff
`percentage >= threshold_percentage`. -/
def monitor_iteration (cfg : Config) (sink : Sink) (paused : Bool)
    (capture : Except Unit Image) (now_s now_ms : ℚ) (loop_duration : ℚ)
    (st : MonitorState) : MonitorState × IterEffects :=
  if paused then
    (st, { captured := false, invoked := false, sleeps := [1/10] })
  else
    match capture with
    | .error _ =>
      (st, { captured := false, invoked := false,
             sleeps := 1/10 :: (cadence_sleep cfg.check_interval_ms loop_duration).toList })
    | .ok img =>
      let st := fps_update st now_s
      let percentage := check_color_match cfg img
      if percentage ≥ cfg.threshold_percentage then
        let r := press_key cfg sink st now_ms
        (r.1, { captured := true, invoked := true,
                sleeps := (cadence_sleep cfg.check_interval_ms loop_duration).toList })
      else
        (st, { captured := true, invoked := false,
               sleeps := (cadence_sleep cfg.check_interval_ms loop_duration).toList })

/-! ## Helper lemmas -/

/-- With a rectangular buffer, the row lengths sum to `H * W`. -/
lemma sum_row_lengths {rows : List (List Pixel)} {w : ℕ}
    (h : ∀ row ∈ rows, row.length = w) :
    (rows.map List.length).sum = rows.length * w := by
  induction rows with
  | nil => simp
  | cons r rs ih =>
    have hr : r.length = w := h r (List.mem_cons_self r rs)
    have hrest : ∀ row ∈ rs, row.length = w :=
      fun row hrow => h row (List.mem_cons_of_mem r hrow)
    simp [hr, ih hrest, Nat.succ_mul, Nat.add_comm]

/-- The matched-pixel count never exceeds the total pixel count. -/
lemma matched_pixels_le_total (img : Image) (target : Color) (tol : ℤ) :
    matched_pixels img target tol ≤ total_pixels img := by
  unfold matched_pixels total_pixels
  calc (img.rows.map fun row =>
          row.countP fun p => pixel_matches p target tol).sum
      ≤ (img.rows.map List.length).sum :=
        List.sum_le_sum fun r _ => List.countP_le_length _
    _ = img.rows.length * img.width := sum_row_lengths img.rect

/-- Widening the tolerance preserves a pixel match. -/
lemma pixel_matches_mono {t1 t2 : ℤ} (h : t1 ≤ t2) (p : Pixel) (c : Color) :
    pixel_matches p c t1 = true → pixel_matches p c t2 = true := by
  simp only [pixel_matches, Bool.and_eq_true, decide_eq_true_eq, abs_le]
  omega

/-- Widening the tolerance can only increase the matched-pixel count. -/
lemma matched_pixels_mono (img : Image) (target : Color) {t1 t2 : ℤ}
    (h : t1 ≤ t2) :
    matched_pixels img target t1 ≤ matched_pixels img target t2 := by
  unfold matched_pixels
  exact List.sum_le_sum fun r _ =>
    List.countP_mono_left fun p _ => pixel_matches_mono h p target

/-! ## The claims -/

/-- C1: a pixel matches iff all three per-channel absolute differences to
the target are at most the tolerance (closed inclusive bound); the match
ratio is the matched-pixel count over the flattened H×W buffer divided by
H·W, times 100; and a non-paused loop iteration with a successful capture
invokes the debounced trigger iff the ratio is at least the threshold
percentage (inclusive). -/
theorem claim_C1_match_ratio_trigger :
    (∀ (p : Pixel) (target : Color) (tol : ℤ),
      pixel_matches p target tol = true ↔
        |p.r - target.r| ≤ tol ∧ |p.g - target.g| ≤ tol ∧ |p.b - target.b| ≤ tol)
    ∧ (∀ (cfg : Config) (img : Image),
      check_color_match cfg img =
        ((img.rows.flatten.countP fun p =>
            pixel_matches p cfg.target_color cfg.color_tolerance : ℕ) : ℚ) /
          ((img.rows.length * img.width : ℕ) : ℚ) * 100)
    ∧ (∀ (cfg : Config) (sink : Sink) (img : Image) (now_s now_ms d : ℚ)
        (st : MonitorState),
      (monitor_iteration cfg sink false (.ok img) now_s now_ms d st).2.invoked
          = true ↔
        cfg.threshold_percentage ≤ check_color_match cfg img) := by
  refine ⟨?_, ?_, ?_⟩
  · intro p target tol
    simp [pixel_matches, and_assoc]
  · intro cfg img
    unfold check_color_match matched_pixels total_pixels
    rw [List.countP_flatten]
  · intro cfg sink img now_s now_ms d st
    unfold monitor_iteration
    by_cases h : cfg.threshold_percentage ≤ check_color_match cfg img
    · simp [h, ge_iff_le]
    · simp [h, ge_iff_le]

/-- C9: an iteration entered with the paused flag set leaves the whole
monitor state (trigger count and time, detection count, fps window)
unchanged, captures nothing, invokes no trigger, and performs exactly one
`time.sleep(0.1)` (100 ms). -/
theorem claim_C9_paused_iteration (cfg : Config) (sink : Sink)
    (capture : Except Unit Image) (now_s now_ms d : ℚ) (st : MonitorState) :
    monitor_iteration cfg sink true capture now_s now_ms d st =
      (st, { captured := false, invoked := false, sleeps := [1/10] }) := by
  rfl

/-- C10: the divisor of the ratio computed by `check_color_match` is the
total pixel count `H * W`; it is nonzero (as a rational) exactly when both
dimensions are positive, so the division is well-defined exactly for
nonempty buffers. -/
theorem claim_C10_divisor (cfg : Config) (img : Image) :
    check_color_match cfg img =
      (matched_pixels img cfg.target_color cfg.color_tolerance : ℚ) /
        (total_pixels img : ℚ) * 100
    ∧ total_pixels img = img.rows.length * img.width
    ∧ ((total_pixels img : ℚ) ≠ 0 ↔ 0 < img.rows.length ∧ 0 < img.width) := by
  refine ⟨rfl, rfl, ?_⟩
  simp [total_pixels, Nat.pos_iff_ne_zero, Nat.cast_ne_zero, not_or]

/-! ## Concrete collaborators and sample data -/

/-- A key sink whose press/release always succeeds. -/
def sink_ok : Sink := fun _ => .ok ()

/-- A key sink whose press/release always raises an error. -/
def sink_err : Sink := fun _ => .error "unrecognized key"

/-- The state set up in `__init__` (`src/main.py` lines 38-44): all
counters and timestamps zero. -/
def st0 : MonitorState where
  trigger_count := 0
  last_trigger_time := 0
  detection_count := 0
  last_fps_check_time := 0
  fps := 0

/-- A concrete 1×2 buffer: one pure-red pixel, one dark pixel. -/
def img1 : Image where
  rows := [[{ r := 255, g := 0, b := 0 }, { r := 10, g := 10, b := 10 }]]
  width := 2
  rect := by decide

/-! ## Debounce lemmas -/

/-- An invocation past the cooldown updates `last_trigger_time` to the
invocation time — before, and regardless of, the press-delay branch — and
is not dropped. -/
lemma press_key_accept (cfg : Config) (sink : Sink) (st : MonitorState)
    (now : ℚ) (h : ¬ now - st.last_trigger_time < (cfg.cooldown_ms : ℚ)) :
    (press_key cfg sink st now).1.last_trigger_time = now
    ∧ (press_key cfg sink st now).2 ≠ .dropped := by
  unfold press_key
  rw [if_neg h]
  by_cases hd : cfg.press_delay_ms > 0 <;> simp [hd]

/-- An invocation inside the cooldown returns with no state change. -/
lemma press_key_drop (cfg : Config) (sink : Sink) (st : MonitorState)
    (now : ℚ) (h : now - st.last_trigger_time < (cfg.cooldown_ms : ℚ)) :
    press_key cfg sink st now = (st, .dropped) := by
  unfold press_key
  rw [if_pos h]

/-- The accept/drop pattern of a `press_key` sequence is the spec pattern
with the previous-accepted time seeded by the current `last_trigger_time`. -/
lemma press_seq_eq_spec (cfg : Config) (sink : Sink) :
    ∀ (ts : List ℚ) (st : MonitorState),
      press_seq cfg sink st ts =
        spec_accepted (cfg.cooldown_ms : ℚ) ts (some st.last_trigger_time) := by
  intro ts
  induction ts with
  | nil => intro st; rfl
  | cons t ts ih =>
    intro st
    by_cases h : t - st.last_trigger_time < (cfg.cooldown_ms : ℚ)
    · have hno : ¬ (cfg.cooldown_ms : ℚ) ≤ t - st.last_trigger_time := not_le.2 h
      simp only [press_seq, press_key_drop cfg sink st t h, spec_accepted,
        if_neg hno]
      exact congrArg (List.cons false) (ih st)
    · have hyes : (cfg.cooldown_ms : ℚ) ≤ t - st.last_trigger_time := not_lt.1 h
      by_cases hd : cfg.press_delay_ms > 0
      · simp only [press_seq, press_key, if_neg h, if_pos hd, spec_accepted,
          if_pos hyes]
        exact congrArg (List.cons true) (ih _)
      · simp only [press_seq, press_key, if_neg h, if_neg hd, spec_accepted,
          if_pos hyes]
        exact congrArg (List.cons true) (ih _)

/-- C2, counterexample to the claim as stated: the initial
`last_trigger_time` is `0`, so a first invocation whose timestamp is
smaller than the cooldown (here `50 < 100`) is dropped by the code, while
the spec pattern accepts every first invocation unconditionally. -/
theorem claim_C2_counterexample :
    press_seq default_config sink_ok st0 [50] = [false]
    ∧ spec_accepted (default_config.cooldown_ms : ℚ) [50] none = [true] := by
  have h50 : (50 : ℚ) - st0.last_trigger_time < (default_config.cooldown_ms : ℚ) := by
    norm_num [st0, default_config]
  constructor
  · simp only [press_seq, press_key_drop default_config sink_ok st0 50 h50]
  · rfl

/-- C2, amended: an invocation is accepted iff it occurs at least
`cooldown_ms` after the previous accepted invocation, where the timestamp
of the previous accepted invocation is seeded by the current
`last_trigger_time` (initially `0`) — so the first invocation is accepted
iff its timestamp is at least the cooldown past that seed, not
unconditionally. On acceptance `last_trigger_time` is updated to the
invocation time immediately, before the press-delay branch; a dropped
invocation returns with no state change at all (no action, no counting). -/
theorem claim_C2_debounce_amended (cfg : Config) (sink : Sink)
    (st : MonitorState) :
    (∀ ts : List ℚ,
      press_seq cfg sink st ts =
        spec_accepted (cfg.cooldown_ms : ℚ) ts (some st.last_trigger_time))
    ∧ (∀ now : ℚ, (cfg.cooldown_ms : ℚ) ≤ now - st.last_trigger_time →
        (press_key cfg sink st now).1.last_trigger_time = now
        ∧ (press_key cfg sink st now).2 ≠ .dropped)
    ∧ (∀ now : ℚ, now - st.last_trigger_time < (cfg.cooldown_ms : ℚ) →
        press_key cfg sink st now = (st, .dropped)) :=
  ⟨fun ts => press_seq_eq_spec cfg sink ts st,
   fun now h => press_key_accept cfg sink st now (not_lt.2 h),
   fun now h => press_key_drop cfg sink st now h⟩

/-- C2 witness: a concrete run (cooldown 100, timestamps 150, 200, 260
from the initial state) matching the amended pattern, one concrete accept,
one concrete drop. -/
theorem claim_C2_debounce_amended_witness :
    press_seq default_config sink_ok st0 [150, 200, 260] =
      spec_accepted (default_config.cooldown_ms : ℚ) [150, 200, 260]
        (some st0.last_trigger_time)
    ∧ ((press_key default_config sink_ok st0 150).1.last_trigger_time = 150
        ∧ (press_key default_config sink_ok st0 150).2 ≠ .dropped)
    ∧ press_key default_config sink_ok st0 50 = (st0, .dropped) :=
  ⟨(claim_C2_debounce_amended default_config sink_ok st0).1 [150, 200, 260],
   (claim_C2_debounce_amended default_config sink_ok st0).2.1 150
     (by norm_num [st0, default_config]),
   (claim_C2_debounce_amended default_config sink_ok st0).2.2 50
     (by norm_num [st0, default_config])⟩

/-- C3: the trigger counter is incremented exactly once, inside
`_execute_press`, iff the key action succeeds there; a failing key action
leaves the counter alone; and a scheduled (delayed) acceptance does not
touch the counter at schedule time — while an inline (no-delay) acceptance
changes it exactly by the `_execute_press` result. -/
theorem claim_C3_counter_at_execute (cfg : Config) (sink : Sink) :
    (∀ c : ℕ, sink (resolve_key cfg.press_key.toLower) = .ok () →
      execute_press cfg sink c = c + 1)
    ∧ (∀ (c : ℕ) (e : String),
      sink (resolve_key cfg.press_key.toLower) = .error e →
      execute_press cfg sink c = c)
    ∧ (∀ (st : MonitorState) (now d : ℚ),
      (press_key cfg sink st now).2 = .scheduled d →
      (press_key cfg sink st now).1.trigger_count = st.trigger_count)
    ∧ (∀ (st : MonitorState) (now : ℚ),
      (press_key cfg sink st now).2 = .immediate →
      (press_key cfg sink st now).1.trigger_count =
        execute_press cfg sink st.trigger_count) := by
  refine ⟨?_, ?_, ?_, ?_⟩
  · intro c h; simp [execute_press, h]
  · intro c e h; simp [execute_press, h]
  · intro st now d h
    by_cases hc : now - st.last_trigger_time < (cfg.cooldown_ms : ℚ)
    · rw [press_key_drop cfg sink st now hc] at h
      simp at h
    · by_cases hd : cfg.press_delay_ms > 0
      · simp [press_key, hc, hd]
      · simp only [press_key, if_neg hc, if_neg hd] at h
        simp at h
  · intro st now h
    by_cases hc : now - st.last_trigger_time < (cfg.cooldown_ms : ℚ)
    · rw [press_key_drop cfg sink st now hc] at h
      simp at h
    · by_cases hd : cfg.press_delay_ms > 0
      · simp only [press_key, if_neg hc, if_pos hd] at h
        simp at h
      · simp [press_key, hc, hd]

/-- C3 witness: the counter goes 5 → 6 on a successful press, stays 5 on a
failing press, is untouched by a delayed acceptance at schedule time, and
is set by `_execute_press` on an inline acceptance. -/
theorem claim_C3_counter_at_execute_witness :
    execute_press default_config sink_ok 5 = 6
    ∧ execute_press default_config sink_err 5 = 5
    ∧ (press_key { default_config with press_delay_ms := 250 } sink_ok st0
        1000).1.trigger_count = st0.trigger_count
    ∧ (press_key default_config sink_ok st0 1000).1.trigger_count =
        execute_press default_config sink_ok st0.trigger_count :=
  ⟨(claim_C3_counter_at_execute default_config sink_ok).1 5 rfl,
   (claim_C3_counter_at_execute default_config sink_err).2.1 5
     "unrecognized key" rfl,
   (claim_C3_counter_at_execute { default_config with press_delay_ms := 250 }
     sink_ok).2.2.1 st0 1000 (((250 : ℤ) : ℚ) / 1000)
     (by norm_num [press_key, st0, default_config]),
   (claim_C3_counter_at_execute default_config sink_ok).2.2.2 st0 1000
     (by norm_num [press_key, st0, default_config])⟩

/-! ## Configuration-merge claims -/

/-- The merge contract in the spec's words (§3 invariant, §6, §8 "Config
merge"): the merged record equals the loaded record on every present key
and equals the defaults on every absent key, recursively for the keys
nested inside `monitor_region` and `target_color`. -/
def merge_spec (loaded : PartialConfig) (c : Config) : Prop :=
  (loaded.monitor_region = none → c.monitor_region = default_config.monitor_region)
  ∧ (∀ pr, loaded.monitor_region = some pr →
      (∀ v, pr.left = some v → c.monitor_region.left = v)
      ∧ (pr.left = none → c.monitor_region.left = default_config.monitor_region.left)
      ∧ (∀ v, pr.top = some v → c.monitor_region.top = v)
      ∧ (pr.top = none → c.monitor_region.top = default_config.monitor_region.top)
      ∧ (∀ v, pr.width = some v → c.monitor_region.width = v)
      ∧ (pr.width = none → c.monitor_region.width = default_config.monitor_region.width)
      ∧ (∀ v, pr.height = some v → c.monitor_region.height = v)
      ∧ (pr.height = none → c.monitor_region.height = default_config.monitor_region.height))
  ∧ (loaded.target_color = none → c.target_color = default_config.target_color)
  ∧ (∀ pc, loaded.target_color = some pc →
      (∀ v, pc.r = some v → c.target_color.r = v)
      ∧ (pc.r = none → c.target_color.r = default_config.target_color.r)
      ∧ (∀ v, pc.g = some v → c.target_color.g = v)
      ∧ (pc.g = none → c.target_color.g = default_config.target_color.g)
      ∧ (∀ v, pc.b = some v → c.target_color.b = v)
      ∧ (pc.b = none → c.target_color.b = default_config.target_color.b))
  ∧ (∀ v, loaded.color_tolerance = some v → c.color_tolerance = v)
  ∧ (loaded.color_tolerance = none → c.color_tolerance = default_config.color_tolerance)
  ∧ (∀ v, loaded.threshold_percentage = some v → c.threshold_percentage = v)
  ∧ (loaded.threshold_percentage = none →
      c.threshold_percentage = default_config.threshold_percentage)
  ∧ (∀ v, loaded.press_key = some v → c.press_key = v)
  ∧ (loaded.press_key = none → c.press_key = default_config.press_key)
  ∧ (∀ v, loaded.press_delay_ms = some v → c.press_delay_ms = v)
  ∧ (loaded.press_delay_ms = none → c.press_delay_ms = default_config.press_delay_ms)
  ∧ (∀ v, loaded.cooldown_ms = some v → c.cooldown_ms = v)
  ∧ (loaded.cooldown_ms = none → c.cooldown_ms = default_config.cooldown_ms)
  ∧ (∀ v, loaded.check_interval_ms = some v → c.check_interval_ms = v)
  ∧ (loaded.check_interval_ms = none →
      c.check_interval_ms = default_config.check_interval_ms)
  ∧ (∀ v, loaded.hotkey_start_stop = some v → c.hotkey_start_stop = v)
  ∧ (loaded.hotkey_start_stop = none →
      c.hotkey_start_stop = default_config.hotkey_start_stop)
  ∧ (∀ v, loaded.hotkey_pause_resume = some v → c.hotkey_pause_resume = v)
  ∧ (loaded.hotkey_pause_resume = none →
      c.hotkey_pause_resume = default_config.hotkey_pause_resume)
  ∧ (∀ v, loaded.hotkey_screenshot = some v → c.hotkey_screenshot = v)
  ∧ (loaded.hotkey_screenshot = none →
      c.hotkey_screenshot = default_config.hotkey_screenshot)

/-- C4: for every loaded record, the merge performed by `load_config`
backfills every missing top-level key and every missing nested key with its
default and never overwrites a present key. -/
theorem claim_C4_config_merge (loaded : PartialConfig) :
    merge_spec loaded (merged_config loaded) := by
  unfold merge_spec
  refine ⟨fun h => by simp [merged_config, h],
    fun pr h => ⟨fun v hv => by simp [merged_config, h, hv],
      fun hn => by simp [merged_config, h, hn],
      fun v hv => by simp [merged_config, h, hv],
      fun hn => by simp [merged_config, h, hn],
      fun v hv => by simp [merged_config, h, hv],
      fun hn => by simp [merged_config, h, hn],
      fun v hv => by simp [merged_config, h, hv],
      fun hn => by simp [merged_config, h, hn]⟩,
    fun h => by simp [merged_config, h],
    fun pc h => ⟨fun v hv => by simp [merged_config, h, hv],
      fun hn => by simp [merged_config, h, hn],
      fun v hv => by simp [merged_config, h, hv],
      fun hn => by simp [merged_config, h, hn],
      fun v hv => by simp [merged_config, h, hv],
      fun hn => by simp [merged_config, h, hn]⟩,
    fun v hv => by simp [merged_config, hv],
    fun hn => by simp [merged_config, hn],
    fun v hv => by simp [merged_config, hv],
    fun hn => by simp [merged_config, hn],
    fun v hv => by simp [merged_config, hv],
    fun hn => by simp [merged_config, hn],
    fun v hv => by simp [merged_config, hv],
    fun hn => by simp [merged_config, hn],
    fun v hv => by simp [merged_config, hv],
    fun hn => by simp [merged_config, hn],
    fun v hv => by simp [merged_config, hv],
    fun hn => by simp [merged_config, hn],
    fun v hv => by simp [merged_config, hv],
    fun hn => by simp [merged_config, hn],
    fun v hv => by simp [merged_config, hv],
    fun hn => by simp [merged_config, hn],
    fun v hv => by simp [merged_config, hv],
    fun hn => by simp [merged_config, hn]⟩

/-- A concrete partially-populated loaded record: a present region dict
with only `left` and `height`, an absent color dict, a mix of present and
absent scalars. -/
def loaded_sample : PartialConfig where
  monitor_region := some { left := some 5, top := none, width := none, height := some 7 }
  target_color := none
  color_tolerance := none
  threshold_percentage := some 55
  press_key := some "x"
  press_delay_ms := none
  cooldown_ms := some 250
  check_interval_ms := none
  hotkey_start_stop := none
  hotkey_pause_resume := some "f2"
  hotkey_screenshot := none

/-- C4 witness: the merge contract holds at `loaded_sample`, and the merged
record evaluates to exactly the expected mix of loaded and default values. -/
theorem claim_C4_config_merge_witness :
    merge_spec loaded_sample (merged_config loaded_sample)
    ∧ merged_config loaded_sample = { default_config with
        monitor_region := { left := 5, top := 100, width := 200, height := 7 }
        threshold_percentage := 55
        press_key := "x"
        cooldown_ms := 250
        hotkey_pause_resume := "f2" } :=
  ⟨claim_C4_config_merge loaded_sample, by decide⟩

/-- C5: when `config.json` is absent or not parseable as JSON,
`load_config` returns the full default configuration and immediately
persists exactly those defaults via `save_config`; `load_config` is a total
function of the file state, so neither error reaches the caller. -/
theorem claim_C5_defaults_on_error (fs : FileState)
    (h : fs = .absent ∨ fs = .corrupt) :
    load_config fs = { config := default_config, written := some default_config } := by
  rcases h with h | h <;> subst h <;> rfl

/-- C5 witness: the absent-file case, evaluated. -/
theorem claim_C5_defaults_on_error_witness :
    (FileState.absent = FileState.absent ∨ FileState.absent = FileState.corrupt)
    ∧ load_config .absent =
        { config := default_config, written := some default_config } :=
  ⟨Or.inl rfl, claim_C5_defaults_on_error .absent (Or.inl rfl)⟩

/-- C6: the cadence step sleeps nothing when the configured interval is
zero; when the interval `I` (ms) is positive and the measured iteration
duration `d` (s) is below `I/1000` s, it sleeps exactly the remainder
`I/1000 - d` s (that is, `I - 1000·d` ms); when `d` reaches the interval,
no sleep call is made; and a non-paused iteration with a successful capture
issues exactly the cadence sleep. -/
theorem claim_C6_cadence (I : ℤ) (d : ℚ) :
    (I = 0 → cadence_sleep I d = none)
    ∧ (0 < I → d < (I : ℚ) / 1000 →
        cadence_sleep I d = some ((I : ℚ) / 1000 - d))
    ∧ (0 < I → (I : ℚ) / 1000 ≤ d → cadence_sleep I d = none)
    ∧ (∀ (cfg : Config) (sink : Sink) (img : Image) (now_s now_ms : ℚ)
        (st : MonitorState),
      (monitor_iteration cfg sink false (.ok img) now_s now_ms d st).2.sleeps
        = (cadence_sleep cfg.check_interval_ms d).toList) := by
  refine ⟨?_, ?_, ?_, ?_⟩
  · intro h
    subst h
    simp [cadence_sleep]
  · intro hI hd
    have h1 : (0 : ℚ) < (I : ℚ) / 1000 :=
      div_pos (by exact_mod_cast hI) (by norm_num)
    simp only [cadence_sleep]
    rw [if_pos h1, if_pos (sub_pos.2 hd)]
  · intro hI hd
    have h1 : (0 : ℚ) < (I : ℚ) / 1000 :=
      div_pos (by exact_mod_cast hI) (by norm_num)
    simp only [cadence_sleep]
    rw [if_pos h1, if_neg (by simpa using not_lt.2 (sub_nonpos.2 hd))]
  · intro cfg sink img now_s now_ms st
    unfold monitor_iteration
    by_cases h : check_color_match cfg img ≥ cfg.threshold_percentage <;>
      simp [h]

/-- C6 witness: interval 0 sleeps nothing; interval 10 ms with a 5 ms
iteration sleeps the remaining 5 ms (1/200 s); interval 10 ms with a 1 s
iteration adds no sleep. -/
theorem claim_C6_cadence_witness :
    cadence_sleep 0 (1/100) = none
    ∧ cadence_sleep 10 (1/200) = some (1/200)
    ∧ cadence_sleep 10 1 = none := by
  refine ⟨(claim_C6_cadence 0 (1/100)).1 rfl, ?_,
    (claim_C6_cadence 10 1).2.2.1 (by norm_num) (by norm_num)⟩
  have h := (claim_C6_cadence 10 (1/200)).2.1 (by norm_num) (by norm_num)
  rw [h]
  norm_num

/-! ## Ratio bounds and monotonicity -/

/-- C7: for every nonempty buffer the match ratio lies in [0, 100]; and
when the tolerance is 255 and all channels (buffer and target) are 8-bit,
every pixel is trivially within bound, so the ratio is exactly 100. -/
theorem claim_C7_ratio_bounds (cfg : Config) (img : Image)
    (hH : 0 < img.rows.length) (hW : 0 < img.width) :
    (0 ≤ check_color_match cfg img ∧ check_color_match cfg img ≤ 100)
    ∧ ((∀ row ∈ img.rows, ∀ p ∈ row, p.inByteRange) →
        cfg.target_color.inByteRange → cfg.color_tolerance = 255 →
        check_color_match cfg img = 100) := by
  have hT : 0 < total_pixels img := Nat.mul_pos hH hW
  have hTQ : (0 : ℚ) < (total_pixels img : ℚ) := by exact_mod_cast hT
  constructor
  · constructor
    · unfold check_color_match
      positivity
    · unfold check_color_match
      have hm : (matched_pixels img cfg.target_color cfg.color_tolerance : ℚ)
          ≤ (total_pixels img : ℚ) := by
        exact_mod_cast matched_pixels_le_total img cfg.target_color cfg.color_tolerance
      calc (matched_pixels img cfg.target_color cfg.color_tolerance : ℚ) /
            (total_pixels img : ℚ) * 100
          ≤ 1 * 100 :=
            mul_le_mul_of_nonneg_right ((div_le_one hTQ).2 hm) (by norm_num)
        _ = 100 := one_mul 100
  · intro hpix htarget htol
    have hall : matched_pixels img cfg.target_color cfg.color_tolerance =
        total_pixels img := by
      unfold matched_pixels
      have hmap : (img.rows.map fun row =>
            row.countP fun p => pixel_matches p cfg.target_color cfg.color_tolerance)
          = img.rows.map List.length := by
        apply List.map_congr_left
        intro row hrow
        apply List.countP_eq_length.2
        intro p hp
        have hpb := hpix row hrow p hp
        unfold Pixel.inByteRange at hpb
        have htb := htarget
        unfold Color.inByteRange at htb
        simp only [pixel_matches, htol, Bool.and_eq_true, decide_eq_true_eq,
          abs_le]
        omega
      rw [hmap, sum_row_lengths img.rect]
      rfl
    unfold check_color_match
    rw [hall, div_self (ne_of_gt hTQ), one_mul]

/-- C7 witness: with tolerance 255 on the concrete 1×2 buffer, the ratio
is within [0, 100] and equals 100. -/
theorem claim_C7_ratio_bounds_witness :
    (0 ≤ check_color_match { default_config with color_tolerance := 255 } img1
      ∧ check_color_match { default_config with color_tolerance := 255 } img1 ≤ 100)
    ∧ check_color_match { default_config with color_tolerance := 255 } img1 = 100 := by
  have h := claim_C7_ratio_bounds { default_config with color_tolerance := 255 }
    img1 (by decide) (by decide)
  exact ⟨h.1, h.2 (by norm_num [img1, Pixel.inByteRange])
    (by norm_num [default_config, Color.inByteRange]) rfl⟩

/-- C8: for a fixed buffer and target, the match ratio is monotone
non-decreasing in the tolerance (nonempty buffers; the ratio is undefined
for empty ones). -/
theorem claim_C8_tolerance_monotone (cfg : Config) (t1 t2 : ℤ) (img : Image)
    (ht : t1 ≤ t2) (hT : 0 < total_pixels img) :
    check_color_match { cfg with color_tolerance := t1 } img ≤
      check_color_match { cfg with color_tolerance := t2 } img := by
  have hTQ : (0 : ℚ) < (total_pixels img : ℚ) := by exact_mod_cast hT
  have hm : (matched_pixels img cfg.target_color t1 : ℚ) ≤
      (matched_pixels img cfg.target_color t2 : ℚ) := by
    exact_mod_cast matched_pixels_mono img cfg.target_color ht
  unfold check_color_match
  exact mul_le_mul_of_nonneg_right
    ((div_le_div_iff_of_pos_right hTQ).2 hm) (by norm_num)

/-- C8 witness: on the concrete 1×2 buffer, widening the tolerance from 0
to 30 does not decrease the ratio. -/
theorem claim_C8_tolerance_monotone_witness :
    check_color_match { default_config with color_tolerance := 0 } img1 ≤
      check_color_match { default_config with color_tolerance := 30 } img1 :=
  claim_C8_tolerance_monotone default_config 0 30 img1 (by norm_num) (by decide)

end ScreenColorMonitor
